import Mathlib

/-!
Shallow embedding of `autoptsclient-zephyr.py`, the Zephyr auto-PTS client
entry point, together with a model (taken from the design spec) of the
Response Synchronizer that the entry point wires up via
`stack_inst.synch_init(callback_thread.set_pending_response,
callback_thread.clear_pending_responses)` but whose code lives in
`autoptsclient_common`, outside this repository snapshot.

The entry point is embedded as pure functions over an explicit environment
(`Env`, the parts of the OS the script consults: effective UID, which paths
exist / are files, whether the QEMU binary is on PATH) and a record of the
parsed command-line options (`Args`).  The behaviour of the externally
supplied `run_test_cases` call is abstracted by `RunBehavior` (it returns
normally, raises `KeyboardInterrupt`, or raises some other exception), and
the observable control flow of `main` plus the `__main__` guard is given
both as an event trace (`main_trace`) and as a process exit code
(`main_outcome` / `top_level_exit`).
-/

set_option autoImplicit false

namespace AutoPTS

/-- Python truthiness of an optional list (argparse yields `None` when the
option is absent): `None` and `[]` are falsy, a non-empty list is truthy. -/
def listOptTruthy : Option (List String) → Bool
  | none => false
  | some l => decide (l ≠ [])

/-- Python truthiness of an optional string: `None` and `""` are falsy. -/
def strOptTruthy : Option String → Bool
  | none => false
  | some s => decide (s ≠ "")

/-- The parsed command-line options of `parse_args` (argparse).  Options
with `nargs="+"` are `none` when absent and a (non-empty, in any actual
argparse run) list when given; plain options are `Option String`. -/
structure Args where
  ip_addr : Option (List String)
  local_addr : Option String
  workspace : String
  kernel_image : String
  tty_file : Option String
  bd_addr : Option String
  enable_max_logs : Bool
  board : Option String
  test_cases : Option (List String)
  excluded : Option (List String)
  retry : Int
  store : Bool
  deriving Repr, DecidableEq

/-- The slice of the operating-system state that `check_args` and `main`
consult: `os.path.exists`, `os.path.isfile`, `find_executable(QEMU_BIN)`
and `os.geteuid()`. -/
structure Env where
  pathExists : String → Bool
  isFile : String → Bool
  qemuFound : Bool
  euid : Nat

/-- Stand-in for `autoprojects.iutctl.QEMU_BIN` (defined outside this
snapshot); only its identity as a name matters here, never its value. -/
def QEMU_BIN : String := "qemu-system-i386"

/-- Mirrors `argparse.add_argument("-r", "--retry", type=int, default=0)`:
the retry option is the given integer, or `0` when absent.  argparse's
`type=int` performs no range check and `check_args` never looks at
`args.retry`. -/
def parse_retry : Option Int → Int
  | none => 0
  | some r => r

/-- The trailing `os.path.isfile(kernel_image)` check of `check_args`. -/
def check_kernel (env : Env) (a : Args) : Option String :=
  if env.isFile a.kernel_image = false then
    some ("kernel_image " ++ a.kernel_image ++ " is not a file!")
  else
    none

/-- The TTY branch of `check_args`: the device path must sit under
`/dev/tty` or `/dev/pts` and must exist. -/
def check_tty (env : Env) (tty : String) (a : Args) : Option String :=
  if (tty.startsWith "/dev/tty" || tty.startsWith "/dev/pts") = false then
    some (tty ++ " is not a TTY file!")
  else if env.pathExists tty = false then
    some (tty ++ " TTY file does not exist!")
  else
    check_kernel env a

/-- Embedding of `check_args`: returns `some message` when the script would
call `sys.exit(message)` (the first failing check wins, as `sys.exit`
raises immediately) and `none` when all checks pass.  The branch order is
the source's: server IP, then the TTY checks (or the QEMU check when
`tty_file` is falsy), then the kernel-image check. -/
def check_args (env : Env) (a : Args) : Option String :=
  if listOptTruthy a.ip_addr = false then
    some "Server IP address not specified!"
  else if strOptTruthy a.tty_file = true then
    check_tty env (a.tty_file.getD "") a
  else if env.qemuFound = false then
    some (QEMU_BIN ++ " is needed but not found!")
  else
    check_kernel env a

/-- The list of server IP addresses `main` iterates over
(`for ip in args.ip_addr`); `none` never reaches this point because
`check_args` exits first, so it is read as the empty list. -/
def ips (a : Args) : List String := a.ip_addr.getD []

/-- Per-profile test-case enumerations, abstracting the external
`autoprojects.gap.test_cases(ptses[0])` etc. calls.  `mesh` and
`additional_mesh` are the two components returned by
`autoprojects.mesh.test_cases(ptses)`. -/
structure ProfileCases (α : Type) where
  gap : List α
  gatt : List α
  sm : List α
  l2cap : List α
  mesh : List α
  additional_mesh : List α
  deriving Repr, DecidableEq

/-- Embedding of the test-case assembly in `main` (the block starting at
`test_cases = autoprojects.gap.test_cases(ptses[0])`): GAP, GATT, SM and
L2CAP cases are concatenated in that order, and when `len(ptses) >= 2` the
mesh cases are appended and the additional mesh cases become the
`additional_test_cases`; otherwise `additional_test_cases = []`.  Returns
`(test_cases, additional_test_cases)`. -/
def build_test_cases {α : Type} (p : ProfileCases α) (nptses : Nat) :
    List α × List α :=
  let tc := p.gap ++ p.gatt ++ p.sm ++ p.l2cap
  if 2 ≤ nptses then (tc ++ p.mesh, p.additional_mesh) else (tc, [])

/-- Embedding of the guard `if args.test_cases or args.excluded:` around the
call to `autoptsclient.get_test_cases_subset`.  The subset function itself
lives in `autoptsclient_common` and is abstracted as the argument
`subset`. -/
def apply_subset_filter {α : Type}
    (subset : List α → Option (List String) → Option (List String) → List α)
    (inc exc : Option (List String)) (tc : List α) : List α :=
  if listOptTruthy inc || listOptTruthy exc then subset tc inc exc else tc

/-- The argument bundle `main` hands to
`autoptsclient.run_test_cases(ptses, test_cases, additional_test_cases,
args.retry)`, field order mirroring the call's argument order. -/
structure RunCall (α : Type) where
  ptses : List String
  primary : List α
  additional : List α
  retry : Int
  deriving Repr, DecidableEq

/-- The complete data-flow of `main` from the parsed arguments to the
`run_test_cases` invocation: assemble the per-profile cases, filter the
primary sequence when an include or exclude list is given, and pass the
additional mesh sequence through untouched. -/
def main_run_call {α : Type}
    (subset : List α → Option (List String) → Option (List String) → List α)
    (p : ProfileCases α) (a : Args) : RunCall α :=
  let built := build_test_cases p (ips a).length
  { ptses := ips a
    primary := apply_subset_filter subset a.test_cases a.excluded built.1
    additional := built.2
    retry := a.retry }

/-- What the externally supplied `autoptsclient.run_test_cases` call does,
as observed by this file's control flow: return normally, raise
`KeyboardInterrupt`, or raise any other (non-`SystemExit`) exception. -/
inductive RunBehavior
  | ok
  | interrupt
  | raiseOther
  deriving Repr, DecidableEq

/-- Observable events of one process run of the script, in order. -/
inductive Ev
  /-- `sys.exit("Please do not run this program as root.")` -/
  | exitRoot
  /-- `parse_args` returned (argparse and `check_args` both succeeded) -/
  | parseOk
  /-- `sys.exit(msg)` raised inside `check_args` -/
  | exitValidation (msg : String)
  /-- `autoptsclient.init_core()` -/
  | initCore
  /-- `autoptsclient.init_pts(ip, ...)`: a connection to one remote engine -/
  | connect (ip : String)
  /-- `btp.init(get_iut)` -/
  | btpInit
  /-- `autoprojects.iutctl.init(...)` -/
  | iutctlInit
  /-- `stack.init_stack()` -/
  | stackInit
  /-- `stack_inst.synch_init(set_pending_response, clear_pending_responses)` -/
  | synchInit
  /-- entry into `autoptsclient.run_test_cases(...)` -/
  | runStart
  /-- a call that clears outstanding pending responses (never emitted by
  this file: `clear_pending_responses` is only passed by reference) -/
  | clearPending
  /-- `autoprojects.iutctl.cleanup()` -/
  | cleanup
  /-- `print "\nBye!"` -/
  | bye
  /-- `pts.unregister_xmlrpc_ptscallback()`: releasing one engine session -/
  | unregister (ip : String)
  /-- `os._exit(0)` at the end of `main` -/
  | exitNormal
  /-- `os._exit(14)` in the `KeyboardInterrupt` handler -/
  | exit14
  /-- `os._exit(16)` in the `BaseException` handler -/
  | exit16
  deriving Repr, DecidableEq

/-- The event trace of one full process run (`main` under the `__main__`
guard): the root check runs first, then argument parsing and validation,
then core/session initialisation, then the run; the `KeyboardInterrupt`
and `BaseException` handlers call `os._exit` immediately, performing no
further work. -/
def main_trace (env : Env) (a : Args) (rb : RunBehavior) : List Ev :=
  if env.euid = 0 then
    [Ev.exitRoot]
  else
    match check_args env a with
    | some m => [Ev.exitValidation m]
    | none =>
      [Ev.parseOk, Ev.initCore] ++ (ips a).map Ev.connect ++
        [Ev.btpInit, Ev.iutctlInit, Ev.stackInit, Ev.synchInit, Ev.runStart] ++
        (match rb with
         | RunBehavior.ok =>
             [Ev.cleanup, Ev.bye] ++ (ips a).map Ev.unregister ++ [Ev.exitNormal]
         | RunBehavior.interrupt => [Ev.exit14]
         | RunBehavior.raiseOther => [Ev.exit16])

/-- How `main` terminates, as seen by the `__main__` guard. -/
inductive Outcome
  /-- `os._exit(code)`: the process is gone, nothing can intercept it -/
  | exited (code : Nat)
  /-- `SystemExit` propagating out of `main` (`sys.exit(message)` exits the
  process with status 1 after printing the message) -/
  | sysExit (code : Nat)
  /-- `KeyboardInterrupt` propagating out of `main` -/
  | kbInterrupt
  /-- any other exception propagating out of `main` -/
  | otherExc
  deriving Repr, DecidableEq

/-- How `main` terminates: root check and `check_args` raise `SystemExit`
with status 1 (`sys.exit` called with a message string); a passing run ends
in `os._exit(0)`; exceptions from `run_test_cases` propagate. -/
def main_outcome (env : Env) (a : Args) (rb : RunBehavior) : Outcome :=
  if env.euid = 0 then
    Outcome.sysExit 1
  else
    match check_args env a with
    | some _ => Outcome.sysExit 1
    | none =>
      match rb with
      | RunBehavior.ok => Outcome.exited 0
      | RunBehavior.interrupt => Outcome.kbInterrupt
      | RunBehavior.raiseOther => Outcome.otherExc

/-- The `__main__` guard: `KeyboardInterrupt` maps to `os._exit(14)`,
`SystemExit` is re-raised (so the interpreter exits with the `SystemExit`
code), any other exception maps to `os._exit(16)`; `os._exit` inside
`main` is already final. -/
def top_level_exit : Outcome → Nat
  | Outcome.exited c => c
  | Outcome.kbInterrupt => 14
  | Outcome.sysExit c => c
  | Outcome.otherExc => 16

end AutoPTS

namespace AutoPTS

/-! Concrete instances used by witnesses and counterexamples. -/

/-- An environment in which every path exists and is a file, QEMU is on
PATH, and the user is not root. -/
def permissiveEnv : Env :=
  { pathExists := fun _ => true
    isFile := fun _ => true
    qemuFound := true
    euid := 1000 }

/-- A subset function that keeps everything (identity filter). -/
def keepAll : List String → Option (List String) → Option (List String) → List String :=
  fun tc _ _ => tc

/-- A subset function that drops everything; used to show that the filter
is genuinely not applied on some paths. -/
def dropAll : List String → Option (List String) → Option (List String) → List String :=
  fun _ _ _ => []

/-- A small concrete per-profile enumeration. -/
def sampleProfiles : ProfileCases String :=
  { gap := ["GAP/CASE_1"]
    gatt := ["GATT/CASE_1"]
    sm := ["SM/CASE_1"]
    l2cap := ["L2CAP/CASE_1"]
    mesh := ["MESH/CASE_1"]
    additional_mesh := ["MESH/ADDITIONAL_1"] }

/-- A well-formed invocation: one server IP, QEMU mode, no filters,
default retry. -/
def plainArgs : Args :=
  { ip_addr := some ["192.168.0.2"]
    local_addr := none
    workspace := "zephyr-hci"
    kernel_image := "zephyr.elf"
    tty_file := none
    bd_addr := none
    enable_max_logs := false
    board := none
    test_cases := none
    excluded := none
    retry := 0
    store := false }

/-- `plainArgs` with the retry option explicitly given as `-1`
(command line `--retry=-1`). -/
def negRetryArgs : Args :=
  { plainArgs with retry := parse_retry (some (-1)) }

/-- `plainArgs` with the server IP option absent. -/
def noIpArgs : Args :=
  { plainArgs with ip_addr := none }

/-- `permissiveEnv` as seen by a root shell. -/
def rootEnv : Env :=
  { permissiveEnv with euid := 0 }

/-! The Response Synchronizer.  Its implementation (the callback thread of
`autoptsclient_common`, reached from this file only through
`stack_inst.synch_init(callback_thread.set_pending_response,
callback_thread.clear_pending_responses)`) is not part of this repository
snapshot, so it is modelled from the spec below. -/

/-- Modelled from the spec: the Response Synchronizer's state, missing from
this snapshot (`autoptsclient_common`'s callback thread).  Spec 4.1/3: a
map of pending expectations keyed by (session, response-kind), each
carrying an ownership token so arrivals match waiters unambiguously. -/
structure SyncState where
  pending : List ((Nat × Nat) × Nat)
  nextToken : Nat
  deriving Repr, DecidableEq

/-- Whether an unmatched pending entry exists for the (session, kind) key. -/
def hasPending (st : SyncState) (sid kind : Nat) : Bool :=
  st.pending.any (fun e => decide (e.1 = (sid, kind)))

/-- Modelled from the spec: `registerPending(sessionId, responseKind) ->
token` of the Response Synchronizer (missing from this snapshot): records
a new expectation, and "fails if an unmatched pending entry already exists
for the same key" — it never silently overwrites. -/
def registerPending (st : SyncState) (sid kind : Nat) :
    Except String (SyncState × Nat) :=
  if hasPending st sid kind then
    Except.error "pending response already registered for this key"
  else
    Except.ok
      ({ pending := ((sid, kind), st.nextToken) :: st.pending
         nextToken := st.nextToken + 1 },
       st.nextToken)

/-- Modelled from the spec: `clearPending(token)` of the Response
Synchronizer (missing from this snapshot): removes the expectation
unconditionally; never blocks. -/
def clearPending (st : SyncState) (token : Nat) : SyncState :=
  { st with pending := st.pending.filter (fun e => decide (e.2 ≠ token)) }

/-- Modelled from the spec: `deliver(sessionId, responseKind, payload)` of
the Response Synchronizer (missing from this snapshot): when a matching
pending entry exists it is consumed (its waiter is woken, returned here as
the satisfied token); otherwise the event is left for the buffering
policy, returned as `none`. -/
def deliver (st : SyncState) (sid kind : Nat) : SyncState × Option Nat :=
  match st.pending.find? (fun e => decide (e.1 = (sid, kind))) with
  | some entry =>
      ({ st with
          pending := st.pending.filter (fun e => decide (e.2 ≠ entry.2)) },
       some entry.2)
  | none => (st, none)

end AutoPTS

namespace AutoPTS

/-- Claim C1: the test-case sequence handed to the run is the concatenation
of the GAP, GATT, SM and L2CAP enumerations in that fixed order, with the
MESH enumeration appended exactly when at least two engine sessions
(server IP addresses) are configured. -/
theorem profile_order {α : Type} (p : ProfileCases α) (n : Nat) :
    (build_test_cases p n).1 =
      p.gap ++ p.gatt ++ p.sm ++ p.l2cap ++ (if 2 ≤ n then p.mesh else []) := by
  unfold build_test_cases
  split <;> simp

/-- Claim C2: the additional (secondary) sequence is the additional-mesh
enumeration exactly when at least two engine sessions are configured and
is empty otherwise, and it reaches `run_test_cases` as its own argument
(`RunCall.additional`), separate from and after the primary sequence
(`RunCall.primary`). -/
theorem additional_mesh_gating {α : Type}
    (subset : List α → Option (List String) → Option (List String) → List α)
    (p : ProfileCases α) (a : Args) :
    (main_run_call subset p a).additional =
      (if 2 ≤ (ips a).length then p.additional_mesh else []) := by
  unfold main_run_call build_test_cases
  split <;> simp

/-- Claim C3: when neither an include list nor an exclude list is given,
the assembled sequence reaches `run_test_cases` unchanged — it equals the
raw enumeration whatever the subset function, i.e. the filtering operation
is not applied at all. -/
theorem no_filter_passthrough {α : Type}
    (subset : List α → Option (List String) → Option (List String) → List α)
    (p : ProfileCases α) (a : Args)
    (h1 : a.test_cases = none) (h2 : a.excluded = none) :
    (main_run_call subset p a).primary =
      (build_test_cases p (ips a).length).1 := by
  unfold main_run_call apply_subset_filter
  simp [h1, h2, listOptTruthy]

/-- Witness for C3 at a concrete invocation: even with a subset function
that drops everything, the primary sequence passes through untouched when
no include/exclude option is given. -/
theorem no_filter_passthrough_witness :
    (main_run_call dropAll sampleProfiles plainArgs).primary =
      (build_test_cases sampleProfiles (ips plainArgs).length).1 :=
  no_filter_passthrough dropAll sampleProfiles plainArgs rfl rfl

/-- Claim C9: the additional mesh sequence bypasses the include/exclude
filter entirely: for every subset function and every filter configuration,
the `additional` argument of the run call is exactly the assembled
additional sequence. -/
theorem additional_unfiltered {α : Type}
    (subset : List α → Option (List String) → Option (List String) → List α)
    (p : ProfileCases α) (a : Args) :
    (main_run_call subset p a).additional =
      (build_test_cases p (ips a).length).2 :=
  rfl

/-- Claim C7 counterexample: the invocation `--retry=-1` (plus valid
mandatory arguments) is accepted — `check_args` passes, it never inspects
the retry value — and `run_test_cases` is handed `-1`, which is negative. -/
theorem retry_negative_counterexample :
    check_args permissiveEnv negRetryArgs = none ∧
    (main_run_call keepAll sampleProfiles negRetryArgs).retry = -1 ∧
    ¬ 0 ≤ (main_run_call keepAll sampleProfiles negRetryArgs).retry :=
  ⟨rfl, rfl, by decide⟩

/-- Claim C7 (amended): the retry limit defaults to 0 when the option is
not given, and the parsed value is handed to `run_test_cases` exactly as
parsed, without any non-negativity check — an explicitly given negative
value passes through. -/
theorem retry_default_passthrough {α : Type}
    (subset : List α → Option (List String) → Option (List String) → List α)
    (p : ProfileCases α) (a : Args) (r : Int) :
    parse_retry none = 0 ∧
    (main_run_call subset p { a with retry := parse_retry none }).retry = 0 ∧
    (main_run_call subset p { a with retry := parse_retry (some r) }).retry = r :=
  ⟨rfl, rfl, rfl⟩

/-- Claim C10: with effective UID 0 the process exits through the root
check before anything else — the whole trace is the root-exit event, so
no argument parsing, validation, connection or run takes place. -/
theorem root_check_first (env : Env) (a : Args) (rb : RunBehavior)
    (h : env.euid = 0) :
    main_trace env a rb = [Ev.exitRoot] := by
  unfold main_trace
  simp [h]

/-- Witness for C10 at a concrete root invocation. -/
theorem root_check_first_witness :
    main_trace rootEnv plainArgs RunBehavior.ok = [Ev.exitRoot] :=
  root_check_first rootEnv plainArgs RunBehavior.ok rfl

/-- Characterisation of a passing validation: `check_args` succeeds iff a
server IP is given, the kernel image is a file, and either a truthy TTY
path under `/dev/tty`/`/dev/pts` that exists is given, or no truthy TTY is
given and QEMU is found. -/
theorem check_args_none_iff (env : Env) (a : Args) :
    check_args env a = none ↔
      listOptTruthy a.ip_addr = true ∧
      env.isFile a.kernel_image = true ∧
      ((strOptTruthy a.tty_file = true ∧
        ((a.tty_file.getD "").startsWith "/dev/tty" = true ∨
         (a.tty_file.getD "").startsWith "/dev/pts" = true) ∧
        env.pathExists (a.tty_file.getD "") = true) ∨
       (strOptTruthy a.tty_file = false ∧ env.qemuFound = true)) := by
  unfold check_args check_tty check_kernel
  cases hip : listOptTruthy a.ip_addr <;>
    cases hst : strOptTruthy a.tty_file <;>
      cases hq : env.qemuFound <;>
        cases hk : env.isFile a.kernel_image <;>
          cases h1 : (a.tty_file.getD "").startsWith "/dev/tty" <;>
            cases h2 : (a.tty_file.getD "").startsWith "/dev/pts" <;>
              cases hpe : env.pathExists (a.tty_file.getD "") <;>
                simp_all

/-- Claim C4: every invocation with a missing server IP address, a given
TTY path outside `/dev/tty`/`/dev/pts`, a given but nonexistent TTY path,
a missing QEMU binary when no TTY is given (Python treats an empty string
the same as no TTY), or a kernel-image path that is not a file, exits
through the `check_args` validation before any `init_pts` connection to a
remote test engine is made. -/
theorem config_validation_fails_fast (env : Env) (a : Args) (rb : RunBehavior)
    (hroot : env.euid ≠ 0)
    (hbad :
      listOptTruthy a.ip_addr = false ∨
      (∃ tty, a.tty_file = some tty ∧ tty ≠ "" ∧
        (tty.startsWith "/dev/tty" || tty.startsWith "/dev/pts") = false) ∨
      (∃ tty, a.tty_file = some tty ∧ tty ≠ "" ∧ env.pathExists tty = false) ∨
      (strOptTruthy a.tty_file = false ∧ env.qemuFound = false) ∨
      env.isFile a.kernel_image = false) :
    (∃ m, main_trace env a rb = [Ev.exitValidation m]) ∧
    ∀ ip, Ev.connect ip ∉ main_trace env a rb := by
  have hsome : ∃ m, check_args env a = some m := by
    rcases hno : check_args env a with _ | m
    case some => exact ⟨m, rfl⟩
    exfalso
    obtain ⟨hip, hkf, hrest⟩ := (check_args_none_iff env a).mp hno
    rcases hbad with h | ⟨tty, ha, hne, hsw⟩ | ⟨tty, ha, hne, hex⟩ | ⟨hs, hq⟩ | hk
    · rw [h] at hip
      exact Bool.false_ne_true hip
    · rcases hrest with ⟨hst, hsw', hpe⟩ | ⟨hs', hq'⟩
      · simp only [ha, Option.getD_some] at hsw'
        simp only [Bool.or_eq_false_iff] at hsw
        rcases hsw' with h1 | h2 <;> simp_all
      · simp [strOptTruthy, ha, hne] at hs'
    · rcases hrest with ⟨hst, hsw', hpe⟩ | ⟨hs', hq'⟩
      · simp only [ha, Option.getD_some] at hpe
        rw [hex] at hpe
        exact Bool.false_ne_true hpe
      · simp [strOptTruthy, ha, hne] at hs'
    · rcases hrest with ⟨hst, hsw', hpe⟩ | ⟨hs', hq'⟩
      · rw [hs] at hst
        exact Bool.false_ne_true hst
      · rw [hq] at hq'
        exact Bool.false_ne_true hq'
    · rw [hk] at hkf
      exact Bool.false_ne_true hkf
  obtain ⟨m, hm⟩ := hsome
  have ht : main_trace env a rb = [Ev.exitValidation m] := by
    unfold main_trace
    simp [hroot, hm]
  exact ⟨⟨m, ht⟩, by intro ip; simp [ht]⟩

/-- Witness for C4: invoking without any server IP exits via validation
with no connection attempted. -/
theorem config_validation_fails_fast_witness :
    (∃ m, main_trace permissiveEnv noIpArgs RunBehavior.ok =
        [Ev.exitValidation m]) ∧
    ∀ ip, Ev.connect ip ∉ main_trace permissiveEnv noIpArgs RunBehavior.ok :=
  config_validation_fails_fast permissiveEnv noIpArgs RunBehavior.ok
    (by decide) (Or.inl rfl)

/-- Claim C5: the process exit code is 0 on normal completion, 14 on
`KeyboardInterrupt`, 16 on any other unhandled exception; on bad
arguments `SystemExit` is re-raised by the guard, so the validation exit
status (1, which is non-zero) is preserved rather than replaced by 16. -/
theorem exit_code_policy (env : Env) (a : Args) :
    (env.euid ≠ 0 → check_args env a = none →
      top_level_exit (main_outcome env a RunBehavior.ok) = 0 ∧
      top_level_exit (main_outcome env a RunBehavior.interrupt) = 14 ∧
      top_level_exit (main_outcome env a RunBehavior.raiseOther) = 16) ∧
    (∀ rb c, main_outcome env a rb = Outcome.sysExit c →
      top_level_exit (main_outcome env a rb) = c ∧ c ≠ 0) := by
  constructor
  · intro h0 hc
    unfold main_outcome
    simp [h0, hc, top_level_exit]
  · intro rb c h
    refine ⟨by rw [h]; rfl, ?_⟩
    unfold main_outcome at h
    split at h
    · simp only [Outcome.sysExit.injEq] at h
      omega
    · rcases hc : check_args env a with _ | m <;> rw [hc] at h
      · cases rb <;> simp at h
      · simp only [Outcome.sysExit.injEq] at h
        omega

/-- Witness for C5 at concrete invocations: a good run under each
`run_test_cases` behaviour, and a root invocation whose `SystemExit`
status 1 is preserved. -/
theorem exit_code_policy_witness :
    (top_level_exit (main_outcome permissiveEnv plainArgs RunBehavior.ok) = 0 ∧
     top_level_exit
        (main_outcome permissiveEnv plainArgs RunBehavior.interrupt) = 14 ∧
     top_level_exit
        (main_outcome permissiveEnv plainArgs RunBehavior.raiseOther) = 16) ∧
    (top_level_exit (main_outcome rootEnv plainArgs RunBehavior.ok) = 1 ∧
     (1 : Nat) ≠ 0) :=
  ⟨(exit_code_policy permissiveEnv plainArgs).1 (by decide) rfl,
   (exit_code_policy rootEnv plainArgs).2 RunBehavior.ok 1 rfl⟩

/-- Claim C6 counterexample: a concrete run interrupted mid-run — the
trace reached the run (it contains the run-start event) yet contains no
clearing of pending responses at all, and no session release either: the
handler exits the process immediately, so the outstanding entries are not
cleared before the sessions are released. -/
theorem interrupt_no_clear_counterexample :
    Ev.runStart ∈ main_trace permissiveEnv plainArgs RunBehavior.interrupt ∧
    Ev.clearPending ∉ main_trace permissiveEnv plainArgs RunBehavior.interrupt := by
  decide

/-- Claim C6 (amended): on a user interrupt mid-run the client's handler
terminates the whole process immediately with `os._exit(14)`; the entry
point performs no clearing of pending responses and never releases the
engine sessions, and no execution context stays blocked in
`awaitResponse` only because the process itself exits. -/
theorem interrupt_hard_exit (env : Env) (a : Args)
    (h0 : env.euid ≠ 0) (h1 : check_args env a = none) :
    main_trace env a RunBehavior.interrupt =
      [Ev.parseOk, Ev.initCore] ++ (ips a).map Ev.connect ++
        [Ev.btpInit, Ev.iutctlInit, Ev.stackInit, Ev.synchInit, Ev.runStart,
         Ev.exit14] ∧
    Ev.clearPending ∉ main_trace env a RunBehavior.interrupt ∧
    ∀ ip, Ev.unregister ip ∉ main_trace env a RunBehavior.interrupt := by
  have ht : main_trace env a RunBehavior.interrupt =
      [Ev.parseOk, Ev.initCore] ++ (ips a).map Ev.connect ++
        [Ev.btpInit, Ev.iutctlInit, Ev.stackInit, Ev.synchInit, Ev.runStart,
         Ev.exit14] := by
    unfold main_trace
    simp [h0, h1]
  refine ⟨ht, ?_, ?_⟩
  · simp [ht]
  · intro ip
    simp [ht]

/-- Witness for the amended C6 at a concrete interrupted run. -/
theorem interrupt_hard_exit_witness :
    main_trace permissiveEnv plainArgs RunBehavior.interrupt =
      [Ev.parseOk, Ev.initCore] ++ (ips plainArgs).map Ev.connect ++
        [Ev.btpInit, Ev.iutctlInit, Ev.stackInit, Ev.synchInit, Ev.runStart,
         Ev.exit14] ∧
    Ev.clearPending ∉ main_trace permissiveEnv plainArgs RunBehavior.interrupt ∧
    ∀ ip, Ev.unregister ip ∉
        main_trace permissiveEnv plainArgs RunBehavior.interrupt :=
  interrupt_hard_exit permissiveEnv plainArgs (by decide) rfl

/-- Claim C8 (modelled from the spec, the Response Synchronizer not being
part of this snapshot): a successful `registerPending` leaves exactly one
pending entry for its (session, kind) key, and a second `registerPending`
for the same key before any clear or delivery fails with an error instead
of silently overwriting the first. -/
theorem register_twice_fails (st st' : SyncState) (sid kind tok : Nat)
    (h : registerPending st sid kind = Except.ok (st', tok)) :
    st'.pending.countP (fun e => decide (e.1 = (sid, kind))) = 1 ∧
    ∃ msg, registerPending st' sid kind = Except.error msg := by
  unfold registerPending at h
  by_cases hp : hasPending st sid kind
  · simp [hp] at h
  · simp [hp] at h
    obtain ⟨hst, htok⟩ := h
    subst hst
    have hp' : ∀ e ∈ st.pending, ¬ e.1 = (sid, kind) := by
      intro e he hcontra
      apply hp
      unfold hasPending
      rw [List.any_eq_true]
      exact ⟨e, he, by simp [hcontra]⟩
    have h0 : st.pending.countP (fun e => decide (e.1 = (sid, kind))) = 0 :=
      List.countP_eq_zero.mpr (by intro e he; simpa using hp' e he)
    constructor
    · simp [List.countP_cons, h0]
    · refine ⟨"pending response already registered for this key", ?_⟩
      unfold registerPending hasPending
      simp

/-- Witness for C8: registering in the empty synchronizer state succeeds,
after which the same (session, kind) key is uniquely pending and a second
registration fails. -/
theorem register_twice_fails_witness :
    (SyncState.mk [((0, 1), 0)] 1).pending.countP
        (fun e => decide (e.1 = (0, 1))) = 1 ∧
    ∃ msg, registerPending (SyncState.mk [((0, 1), 0)] 1) 0 1 =
        Except.error msg :=
  register_twice_fails ⟨[], 0⟩ ⟨[((0, 1), 0)], 1⟩ 0 1 0 rfl

end AutoPTS
